import Mathlib

/-!
Shallow embedding of the dashboard program in `src/main.rs` (repository
tahnok/malter): a Rust binary that fetches indoor climate data from an
InfluxDB server and outdoor/forecast data from the OpenWeatherMap API,
and composes a three-band dashboard onto a rotated 2.9-inch e-paper
canvas.

Modelling conventions:
  * Rust `f64` values are embedded as exact rationals (`ℚ`); every f64
    is an exact rational, and the Rust numeric formatting `{:.N}` rounds
    the exact decimal value half-to-even, which `fmtFixed` reproduces.
  * `serde_json::Value` is embedded as the inductive `Json` below, with
    the library's indexing semantics (indexing a wrong-typed value or a
    missing key/position yields `null`).
  * Fallible transport steps (`ureq` call + `into_json`) are inputs of
    type `Except String Json`; the `?` operator is the `Except` bind.
  * The display is write-only in this program; the `draw` function is
    embedded as the ordered list of drawing operations it issues.
-/

namespace Malter

/-- `serde_json::Value`: JSON documents as returned by the two HTTP
sources.  Objects keep their fields as an association list. -/
inductive Json where
  | null : Json
  | bool (b : Bool) : Json
  | num (q : ℚ) : Json
  | str (s : String) : Json
  | arr (xs : List Json) : Json
  | obj (kvs : List (String × Json)) : Json

/-- `value[key]` for a string key (serde_json `Index for str`): on an
object, the value of the first field named `key`; `null` whenever the
value is not an object or the key is absent. -/
def Json.index : Json → String → Json
  | .obj kvs, k =>
    match kvs.find? (fun kv => kv.1 == k) with
    | some kv => kv.2
    | none => .null
  | _, _ => .null

/-- `value[i]` for a usize index (serde_json `Index for usize`): on an
array, the `i`-th element; `null` whenever the value is not an array or
the index is out of range. -/
def Json.indexN : Json → Nat → Json
  | .arr xs, i => xs.getD i .null
  | _, _ => .null

/-- `Value::as_f64`: `some` exactly on JSON numbers. -/
def Json.as_f64 : Json → Option ℚ
  | .num q => some q
  | _ => none

/-- Digits of a natural number, most significant first (base 10). -/
def natDigits : ℕ → ℕ → List Char
  | 0, _ => []
  | fuel + 1, n =>
    if n < 10 then [Nat.digitChar n]
    else natDigits fuel (n / 10) ++ [Nat.digitChar (n % 10)]

/-- Decimal representation of a natural number. -/
def natRepr (n : ℕ) : String := String.mk (natDigits (n + 1) n)

/-- Rust's `format!("{:.prec}", x)` on a finite f64 whose exact value is
`q`: fixed-point decimal with `prec` digits after the point, rounding
the exact value half-to-even, keeping the sign of negative inputs.
Computed on the reduced numerator/denominator: with `m = |num| * 10^prec`
the rounded scaled magnitude is `m / den` bumped by one when the
remainder exceeds half the denominator (ties to even). -/
def fmtFixed (prec : ℕ) (q : ℚ) : String :=
  let neg := q.num < 0
  let scaledNum : ℕ := q.num.natAbs * 10 ^ prec
  let n0 : ℕ := scaledNum / q.den
  let r : ℕ := scaledNum % q.den
  let n : ℕ :=
    if 2 * r < q.den then n0
    else if q.den < 2 * r then n0 + 1
    else if n0 % 2 = 0 then n0 else n0 + 1
  let sign := if neg then "-" else ""
  if prec = 0 then sign ++ natRepr n
  else
    let ip := n / 10 ^ prec
    let fp := n % 10 ^ prec
    let fps := natRepr fp
    let pad := String.mk (List.replicate (prec - fps.length) '0')
    sign ++ natRepr ip ++ "." ++ pad ++ fps

/-- Escape of one character inside a JSON string literal, as serde_json
serializes it. -/
def escapeChar (c : Char) : String :=
  if c = '"' then "\\\""
  else if c = '\\' then "\\\\"
  else if c = (Char.ofNat 8) then "\\b"
  else if c = (Char.ofNat 9) then "\\t"
  else if c = (Char.ofNat 10) then "\\n"
  else if c = (Char.ofNat 12) then "\\f"
  else if c = (Char.ofNat 13) then "\\r"
  else if c.toNat < 32 then
    "\\u00" ++ String.mk [Nat.digitChar (c.toNat / 16), Nat.digitChar (c.toNat % 16)]
  else String.mk [c]

/-- Body of a serialized JSON string literal. -/
def escapeString (s : String) : String := String.join (s.toList.map escapeChar)

/-- serde_json's serialization of a JSON number.  serde_json prints the
shortest decimal that round-trips the float; no claim exercises the
numeric case, so it is modelled as the rational's canonical numeral. -/
def numRepr (q : ℚ) : String :=
  (if q.num < 0 then "-" else "") ++ natRepr q.num.natAbs ++
    (if q.den = 1 then "" else "/" ++ natRepr q.den)

mutual

/-- `Value::to_string()` (the `Display` impl of `serde_json::Value`):
compact JSON serialization.  A string value is rendered with enclosing
double quotes; `null` is rendered as the four characters `null`. -/
def Json.to_string : Json → String
  | .null => "null"
  | .bool b => cond b "true" "false"
  | .num q => numRepr q
  | .str s => "\"" ++ escapeString s ++ "\""
  | .arr xs => "[" ++ Json.seqRepr xs ++ "]"
  | .obj kvs => "\x7b" ++ Json.objRepr kvs ++ "\x7d"

/-- Comma-separated serialization of array elements. -/
def Json.seqRepr : List Json → String
  | [] => ""
  | [j] => j.to_string
  | j :: rest => j.to_string ++ "," ++ Json.seqRepr rest

/-- Comma-separated serialization of object fields. -/
def Json.objRepr : List (String × Json) → String
  | [] => ""
  | [(k, v)] => "\"" ++ escapeString k ++ "\":" ++ v.to_string
  | (k, v) :: rest =>
    "\"" ++ escapeString k ++ "\":" ++ v.to_string ++ "," ++ Json.objRepr rest

end

/-- `struct IndoorData` (src/main.rs:40). -/
structure IndoorData where
  temp : ℚ
  humidity : ℚ
  pressure : ℚ
deriving DecidableEq

/-- `struct OutdoorData` (src/main.rs:47). -/
structure OutdoorData where
  temp : ℚ
  humidity : ℚ
  pressure : ℚ
deriving DecidableEq

/-- `struct ForecastData` (src/main.rs:53). -/
structure ForecastData where
  high : ℚ
  low : ℚ
  description : String
  pop : ℚ
deriving DecidableEq

/-- `fn get_data` (src/main.rs:123-162).  The two transport steps
(`ureq::get(...).call()?.into_json()?`) are abstracted as the
`Except`-valued inputs; everything after them is the pure field
extraction of the source. -/
def get_data (influxResp openweatherResp : Except String Json) :
    Except String (IndoorData × OutdoorData × ForecastData) :=
  match influxResp with
  | .error e => .error e
  | .ok response =>
    let values :=
      (((((response.index "results").indexN 0).index "series").indexN 0).index
        "values").indexN 0
    let indoor_data : IndoorData :=
      { temp := (values.indexN 1).as_f64.getD 0
        humidity := (values.indexN 3).as_f64.getD 0
        pressure := (values.indexN 2).as_f64.getD 0 }
    match openweatherResp with
    | .error e => .error e
    | .ok response2 =>
      let outdoor_data : OutdoorData :=
        { temp := ((response2.index "current").index "feels_like").as_f64.getD 0
          humidity := ((response2.index "current").index "humidity").as_f64.getD 0
          pressure := ((response2.index "current").index "pressure").as_f64.getD 0 }
      let forecast_data : ForecastData :=
        { high := ((((response2.index "daily").indexN 0).index "temp").index
            "max").as_f64.getD 0
          low := ((((response2.index "daily").indexN 0).index "temp").index
            "min").as_f64.getD 0
          description := (((((response2.index "daily").indexN 0).index
            "weather").indexN 0).index "description").to_string
          pop := (((response2.index "daily").indexN 0).index "pop").as_f64.getD 0 }
      .ok (indoor_data, outdoor_data, forecast_data)

/-! ## Canvas geometry

`epd_waveshare::epd2in9` exposes `WIDTH = 128` and `HEIGHT = 296` (the
panel's native portrait resolution).  `main` sets
`DisplayRotation::Rotate90`, so the drawing coordinate system used by
`draw` is `HEIGHT` pixels wide and `WIDTH` pixels tall; valid rotated
coordinates are `[0, HEIGHT) x [0, WIDTH)`.  The display driver
silently drops out-of-range pixels. -/

/-- `epd_waveshare::epd2in9::WIDTH` (cast to `i32` at use sites). -/
def WIDTH : Int := 128

/-- `epd_waveshare::epd2in9::HEIGHT` (cast to `i32` at use sites). -/
def HEIGHT : Int := 296

/-- `embedded_graphics::geometry::Point` (i32 coordinates). -/
structure Point where
  x : Int
  y : Int
deriving DecidableEq

/-- `embedded_graphics::primitives::Rectangle` (embedded-graphics 0.6):
defined by its top-left and bottom-right corners, BOTH INCLUSIVE — the
rectangle's pixels are `top_left.x ≤ x ≤ bottom_right.x`,
`top_left.y ≤ y ≤ bottom_right.y`. -/
structure Rectangle where
  top_left : Point
  bottom_right : Point
deriving DecidableEq

/-- The set of pixels a rectangle covers (its outline is its border,
so outline pixels are covered as well). -/
def coveredBy (r : Rectangle) (p : Point) : Prop :=
  r.top_left.x ≤ p.x ∧ p.x ≤ r.bottom_right.x ∧
    r.top_left.y ≤ p.y ∧ p.y ≤ r.bottom_right.y

instance (r : Rectangle) (p : Point) : Decidable (coveredBy r p) := by
  unfold coveredBy; infer_instance

/-- The half-open x-extent of a band rectangle: the band owns the
columns from its left corner up to but excluding its right corner. -/
def inBandX (r : Rectangle) (x : Int) : Prop :=
  r.top_left.x ≤ x ∧ x < r.bottom_right.x

instance (r : Rectangle) (x : Int) : Decidable (inBandX r x) := by
  unfold inBandX; infer_instance

/-- The two fonts used by `draw` (`Font12x16` for the big headline
temperatures, `Font8x16` for everything else). -/
inductive FontKind where
  | font12x16 : FontKind
  | font8x16 : FontKind
deriving DecidableEq

/-- `BinaryColor`; the source aliases `BinaryColor::On` as `Black`. -/
inductive BinaryColor where
  | on : BinaryColor
  | off : BinaryColor
deriving DecidableEq

/-- `BinaryColor::On as Black` (src/main.rs:9). -/
def Black : BinaryColor := BinaryColor.on

/-- `embedded_text` horizontal/vertical alignment; only `CenterAligned`
is used. -/
inductive Alignment | centerAligned
deriving DecidableEq

/-- A built `TextBoxStyle` (font, color, both alignments). -/
structure TextBoxStyle where
  font : FontKind
  text_color : BinaryColor
  alignment : Alignment
  vertical_alignment : Alignment
deriving DecidableEq

/-- A built `PrimitiveStyle` (stroke color and width). -/
structure PrimitiveStyle where
  stroke_color : BinaryColor
  stroke_width : Nat
deriving DecidableEq

/-- `big_text_style` (src/main.rs:170-174). -/
def big_text_style : TextBoxStyle :=
  { font := .font12x16, text_color := Black
    alignment := .centerAligned, vertical_alignment := .centerAligned }

/-- `small_text_style` (src/main.rs:176-180). -/
def small_text_style : TextBoxStyle :=
  { font := .font8x16, text_color := Black
    alignment := .centerAligned, vertical_alignment := .centerAligned }

/-- `line_style` (src/main.rs:182-185): 1-pixel black stroke. -/
def line_style : PrimitiveStyle := { stroke_color := Black, stroke_width := 1 }

/-- `left_top` (src/main.rs:188-191). -/
def left_top : Rectangle :=
  { top_left := { x := 0, y := 0 }
    bottom_right := { x := HEIGHT / 3, y := WIDTH / 2 } }

/-- `left_bottom` (src/main.rs:192-195). -/
def left_bottom : Rectangle :=
  { top_left := { x := 0, y := WIDTH / 2 }
    bottom_right := { x := HEIGHT / 3, y := WIDTH } }

/-- `middle_top` (src/main.rs:218-221). -/
def middle_top : Rectangle :=
  { top_left := { x := HEIGHT / 3, y := 0 }
    bottom_right := { x := (HEIGHT / 3) * 2, y := WIDTH / 2 } }

/-- `middle_bottom` (src/main.rs:222-225). -/
def middle_bottom : Rectangle :=
  { top_left := { x := HEIGHT / 3, y := WIDTH / 2 }
    bottom_right := { x := (HEIGHT / 3) * 2, y := WIDTH } }

/-- `right` (src/main.rs:249-252). -/
def right : Rectangle :=
  { top_left := { x := (HEIGHT / 3) * 2, y := 0 }
    bottom_right := { x := HEIGHT, y := WIDTH } }

/-- The six region rectangles computed by `draw`, in source order
(five rectangles: the right band has no top/bottom split). -/
def regions : List Rectangle :=
  [left_top, left_bottom, middle_top, middle_bottom, right]

/-- One drawing operation issued against the display. -/
inductive DrawOp where
  /-- `TextBox::new(text, bounds).into_styled(style).draw(display)` -/
  | textBox (text : String) (bounds : Rectangle) (style : TextBoxStyle) : DrawOp
  /-- `bounds.into_styled(style).draw(display)` (outline rectangle) -/
  | styledRect (bounds : Rectangle) (style : PrimitiveStyle) : DrawOp
deriving DecidableEq

/-- `fn draw` (src/main.rs:164-272), embedded as the ordered list of
drawing operations it issues.  Drawing into the rotated display buffer
cannot fail (out-of-range pixels are silently dropped by the driver),
so the `.expect("impossible")` calls never fire and the function
returns `Ok` with the full operation sequence. -/
def draw (indoor_data : IndoorData) (outdoor_data : OutdoorData)
    (forecast_data : ForecastData) : Except String (List DrawOp) :=
  Except.ok
    [ .textBox (fmtFixed 1 indoor_data.temp ++ "C") left_top big_text_style
    , .styledRect left_top line_style
    , .textBox
        (fmtFixed 1 indoor_data.humidity ++ "%\n" ++
          fmtFixed 0 indoor_data.pressure ++ " hPa")
        left_bottom small_text_style
    , .styledRect left_bottom line_style
    , .textBox (fmtFixed 1 outdoor_data.temp ++ "C") middle_top big_text_style
    , .styledRect middle_top line_style
    , .textBox
        (fmtFixed 1 outdoor_data.humidity ++ "%\n" ++
          fmtFixed 0 outdoor_data.pressure ++ " hPa")
        middle_bottom small_text_style
    , .styledRect middle_bottom line_style
    , .textBox
        ("High: " ++ fmtFixed 1 forecast_data.high ++
          "\n  Low: " ++ fmtFixed 1 forecast_data.low ++
          "\n  Pop: " ++ fmtFixed 1 forecast_data.pop ++
          "%\n\n" ++ forecast_data.description)
        right small_text_style
    , .styledRect right line_style ]

/-! ## The `main` render cycle -/

/-- `struct Config` (src/main.rs:31-38). -/
structure Config where
  influx_server : String
  influx_database : String
  lat : String
  lon : String
  openweather_api_key : String

/-- The observable side-effecting steps of one run of `main`, in
program order. -/
inductive Effect where
  | printBedtime : Effect
  | readConfigFile : Effect
  | initEpd : Effect
  | httpInflux : Effect
  | httpOpenweather : Effect
  | drawCalls : Effect
  | updateAndDisplayFrame : Effect
  | epdSleep : Effect
deriving DecidableEq

/-- The environment one run of `main` executes in: the local hour and
the outcomes of each fallible external step.  Reading `conf.toml`
itself is done with `.expect` (a panic, outside the `Result` channel),
so only the TOML parse outcome is modelled. -/
structure Env where
  hour : Nat
  confParse : Except String Config
  epdInit : Except String Unit
  influxDoc : Except String Json
  weatherDoc : Except String Json
  displayResult : Except String Unit
  sleepResult : Except String Unit

/-- The transport effects `get_data` performs: the InfluxDB request
always runs first; the OpenWeatherMap request runs only if the first
succeeded (its `?` did not return early). -/
def getDataTrace (influxResp _openweatherResp : Except String Json) : List Effect :=
  match influxResp with
  | .error _ => [.httpInflux]
  | .ok _ => [.httpInflux, .httpOpenweather]

/-- `fn main` (src/main.rs:91-121): the ordered effect trace of one
invocation together with its returned `Result`. -/
def mainRun (env : Env) : List Effect × Except String Unit :=
  if env.hour > 22 || env.hour < 7 then
    ([.printBedtime], .ok ())
  else
    match env.confParse with
    | .error e => ([.readConfigFile], .error e)
    | .ok _config =>
      match env.epdInit with
      | .error e => ([.readConfigFile, .initEpd], .error e)
      | .ok _ =>
        let acq := getDataTrace env.influxDoc env.weatherDoc
        match get_data env.influxDoc env.weatherDoc with
        | .error e => ([.readConfigFile, .initEpd] ++ acq, .error e)
        | .ok (indoor_data, outdoor_data, forecast_data) =>
          match draw indoor_data outdoor_data forecast_data with
          | .error e =>
            ([.readConfigFile, .initEpd] ++ acq ++ [.drawCalls], .error e)
          | .ok _ops =>
            match env.displayResult with
            | .error e =>
              ([.readConfigFile, .initEpd] ++ acq ++
                [.drawCalls, .updateAndDisplayFrame], .error e)
            | .ok _ =>
              match env.sleepResult with
              | .error e =>
                ([.readConfigFile, .initEpd] ++ acq ++
                  [.drawCalls, .updateAndDisplayFrame, .epdSleep], .error e)
              | .ok _ =>
                ([.readConfigFile, .initEpd] ++ acq ++
                  [.drawCalls, .updateAndDisplayFrame, .epdSleep], .ok ())

/-- `Result::is_ok` on the embedded `Except`. -/
def isOkE : Except String α → Bool
  | .ok _ => true
  | .error _ => false

/-! ## Sample data

The synthetic readings used by the spec's scenarios.  f64 values are
embedded as exact rationals; the decimal literals of the scenarios are
exactly representable up to formatting (their nearest f64 formats to
the same string), except `0.35`, whose nearest f64 is strictly below
`0.35` and is kept exact below. -/

/-- Scenario 1 indoor reading `{temp:21.4, humidity:49.2, pressure:1026.1}`. -/
def indoorSample : IndoorData :=
  { temp := mkRat 214 10, humidity := mkRat 492 10, pressure := mkRat 10261 10 }

/-- Scenario 2 outdoor reading `{temp:-3.0, humidity:80.0, pressure:998.6}`. -/
def outdoorSample : OutdoorData :=
  { temp := mkRat (-3) 1, humidity := mkRat 80 1, pressure := mkRat 9986 10 }

/-- The exact rational value of the f64 nearest to 0.35
(`3152519739159347 * 2 ^ (-53)`), the value the program holds after
parsing `0.35` from JSON. -/
def popF64_035 : ℚ := mkRat 3152519739159347 9007199254740992

/-- Scenario 3 forecast
`{high:10.2, low:2.1, description:"light rain", pop:0.35}`.  The
description field of `ForecastData` is the serde_json serialization of
the source string, hence carries literal quotes (see C10); the raw
string is used here to exercise the compositor's template alone. -/
def forecastSample : ForecastData :=
  { high := mkRat 102 10, low := mkRat 21 10
    description := "light rain", pop := popF64_035 }

/-! ## C1: the three bands tile the rotated width -/

/-- C1: the three bands' x-extents exactly tile the rotated canvas
width `[0, 296)`: the band boundaries computed by `draw` are `0`,
`⌊296/3⌋ = 98`, `2*⌊296/3⌋ = 196` and `296` (for the top and bottom
sub-rectangles alike), every column of `[0, 296)` falls in exactly one
band's half-open x-extent, and the residual strip `[196, 296)` left by
the integer division lies entirely in the last (forecast) band. -/
theorem bands_tile :
    left_top.top_left.x = 0 ∧ left_top.bottom_right.x = HEIGHT / 3 ∧
    left_bottom.top_left.x = 0 ∧ left_bottom.bottom_right.x = HEIGHT / 3 ∧
    middle_top.top_left.x = HEIGHT / 3 ∧
    middle_top.bottom_right.x = 2 * (HEIGHT / 3) ∧
    middle_bottom.top_left.x = HEIGHT / 3 ∧
    middle_bottom.bottom_right.x = 2 * (HEIGHT / 3) ∧
    right.top_left.x = 2 * (HEIGHT / 3) ∧ right.bottom_right.x = HEIGHT ∧
    (∀ x : Int, 0 ≤ x → x < HEIGHT →
      inBandX left_top x ∨ inBandX middle_top x ∨ inBandX right x) ∧
    (∀ x : Int, ¬(inBandX left_top x ∧ inBandX middle_top x)) ∧
    (∀ x : Int, ¬(inBandX left_top x ∧ inBandX right x)) ∧
    (∀ x : Int, ¬(inBandX middle_top x ∧ inBandX right x)) ∧
    (∀ x : Int, 2 * (HEIGHT / 3) ≤ x → x < HEIGHT → inBandX right x) := by
  refine ⟨rfl, rfl, rfl, rfl, rfl, rfl, rfl, rfl, rfl, rfl, ?_, ?_, ?_, ?_, ?_⟩ <;>
    · intro x
      simp only [inBandX, left_top, middle_top, right, HEIGHT, WIDTH]
      omega

/-- Witness for C1: column 150 lies in a band (the middle one), and
column 295 of the residual strip lies in the forecast band. -/
theorem bands_tile_witness :
    (inBandX left_top 150 ∨ inBandX middle_top 150 ∨ inBandX right 150) ∧
      inBandX right 295 :=
  ⟨bands_tile.2.2.2.2.2.2.2.2.2.2.1 150 (by decide) (by decide),
   bands_tile.2.2.2.2.2.2.2.2.2.2.2.2.2.2 295 (by decide) (by decide)⟩

/-! ## C2: region pixels versus the canvas bounds -/

/-- C2 as stated is false: embedded-graphics 0.6 rectangles include
their `bottom_right` corner, so the forecast rectangle `right` —
`(196,0)` to `(296,128)` — covers the pixel `(296, 128)` (a corner of
its one-pixel outline), which is outside `[0, 296) x [0, 128)`. -/
theorem region_pixel_outside_canvas :
    ¬ (∀ r ∈ regions, ∀ p : Point, coveredBy r p →
        0 ≤ p.x ∧ p.x < HEIGHT ∧ 0 ≤ p.y ∧ p.y < WIDTH) := by
  intro h
  have hc := h right (by decide) { x := 296, y := 128 } (by decide)
  simp only [HEIGHT, WIDTH] at hc
  omega

/-- C2 amended: every pixel covered by the six region rectangles —
outline included — lies within the CLOSED bounds `[0, 296] x [0, 128]`
of the rotated canvas; the rectangles flush with the canvas's right or
bottom edge touch `x = 296` or `y = 128`, one pixel past the half-open
bounds, and those pixels are silently clipped by the display driver. -/
theorem regions_within_closed_bounds :
    ∀ r ∈ regions, ∀ p : Point, coveredBy r p →
      0 ≤ p.x ∧ p.x ≤ HEIGHT ∧ 0 ≤ p.y ∧ p.y ≤ WIDTH := by
  intro r hr p hp
  simp only [regions, List.mem_cons, List.not_mem_nil, or_false] at hr
  rcases hr with rfl | rfl | rfl | rfl | rfl <;>
    · simp only [coveredBy, left_top, left_bottom, middle_top, middle_bottom,
        right, HEIGHT, WIDTH] at hp ⊢
      omega

/-- Witness for C2's amended statement: the pixel `(98, 64)` covered by
the indoor primary region respects the closed bounds. -/
theorem regions_within_closed_bounds_witness :
    0 ≤ (98 : Int) ∧ (98 : Int) ≤ HEIGHT ∧ 0 ≤ (64 : Int) ∧ (64 : Int) ≤ WIDTH :=
  regions_within_closed_bounds left_top (by decide) { x := 98, y := 64 } (by decide)

/-! ## C3: field extraction is total -/

/-- An InfluxDB response whose `values[0][1]` (temperature) holds a
string instead of a number, while pressure and humidity are present. -/
def influxNonNumericTemp : Json :=
  .obj [("results", .arr [.obj [("series", .arr [.obj [("values",
    .arr [.arr [.str "2021-01-01T00:00:00Z", .str "oops",
                .num (mkRat 101325 100), .num (mkRat 442 10)]])]])]])]

/-- C3: extraction is total — for EVERY pair of successfully fetched
and parsed documents `get_data` returns `Ok` with three fully
populated records; on a completely malformed document every numeric
field defaults to `0.0` (and the description serializes to `null`);
on a document where one field holds a non-numeric value only that
field defaults while its siblings are extracted. -/
theorem get_data_total :
    (∀ d1 d2 : Json, ∃ t, get_data (.ok d1) (.ok d2) = .ok t) ∧
    get_data (.ok .null) (.ok .null) =
      .ok ({ temp := 0, humidity := 0, pressure := 0 },
           { temp := 0, humidity := 0, pressure := 0 },
           { high := 0, low := 0, description := "null", pop := 0 }) ∧
    get_data (.ok influxNonNumericTemp) (.ok .null) =
      .ok ({ temp := 0, humidity := mkRat 442 10, pressure := mkRat 101325 100 },
           { temp := 0, humidity := 0, pressure := 0 },
           { high := 0, low := 0, description := "null", pop := 0 }) := by
  refine ⟨fun d1 d2 => ⟨_, rfl⟩, ?_, ?_⟩ <;>
    · simp only [get_data, Json.index, Json.indexN, Json.as_f64, Json.to_string,
        influxNonNumericTemp]
      rfl

/-! ## C4: errors come from transport alone; no draw after a failure -/

/-- C4: `get_data` returns an error exactly when one of the two
transport steps (HTTP request + JSON body parse, collapsed into the
`Except`-valued inputs) failed; and in `main`, the draw step appears in
the effect trace only when `get_data` on the run's two transport
outcomes succeeded. -/
theorem transport_failure_gates_draw :
    (∀ influxResp openweatherResp : Except String Json,
      isOkE (get_data influxResp openweatherResp) =
        (isOkE influxResp && isOkE openweatherResp)) ∧
    (∀ env : Env, Effect.drawCalls ∈ (mainRun env).1 →
      isOkE (get_data env.influxDoc env.weatherDoc) = true) := by
  constructor
  · intro a b
    rcases a with e | d1 <;> rcases b with e2 | d2 <;>
      simp [get_data, isOkE]
  · intro env h
    unfold mainRun at h
    split at h
    · simp at h
    · rcases hconf : env.confParse with e | c <;> rw [hconf] at h
      · simp at h
      · rcases hepd : env.epdInit with e | u <;> rw [hepd] at h
        · simp at h
        · rcases hdata : get_data env.influxDoc env.weatherDoc with e | t
          · rw [hdata] at h
            simp [getDataTrace] at h
            rcases hinflux : env.influxDoc with e2 | d2 <;>
              simp [hinflux] at h
          · simp [isOkE, hdata]

/-- Witness for C4: on a run whose transport steps both succeed (with
`null` bodies), the draw step is in the trace and `get_data` is `Ok`;
the theorem's gate applied to that run discharges to `true = true`. -/
theorem transport_failure_gates_draw_witness :
    isOkE (get_data (Except.ok Json.null) (Except.ok Json.null)) = true :=
  transport_failure_gates_draw.2
    { hour := 12
      confParse := .ok { influx_server := "", influx_database := ""
                         lat := "", lon := "", openweather_api_key := "" }
      epdInit := .ok ()
      influxDoc := .ok Json.null
      weatherDoc := .ok Json.null
      displayResult := .ok ()
      sleepResult := .ok () }
    (by decide)

/-! ## C5: scenario texts of the first two bands -/

/-- C5: with the scenario indoor reading `{21.4, 49.2, 1026.1}` and
outdoor reading `{-3.0, 80.0, 998.6}`, whatever the forecast record,
band 1 renders primary text `"21.4C"` (big font, indoor primary
region) and secondary text `"49.2%\n1026 hPa"`, and band 2 renders
primary text `"-3.0C"` and secondary text `"80.0%\n999 hPa"` (small
font, centered, in the corresponding sub-regions). -/
theorem scenario_band_texts :
    ∀ f : ForecastData, ∃ ops,
      draw indoorSample outdoorSample f = .ok ops ∧
      ops.get? 0 = some (.textBox "21.4C" left_top big_text_style) ∧
      ops.get? 2 = some (.textBox "49.2%\n1026 hPa" left_bottom small_text_style) ∧
      ops.get? 4 = some (.textBox "-3.0C" middle_top big_text_style) ∧
      ops.get? 6 = some (.textBox "80.0%\n999 hPa" middle_bottom small_text_style) := by
  intro f
  exact ⟨_, rfl, rfl, rfl, rfl, rfl⟩

/-! ## C6: the forecast region's text -/

/-- The forecast text `draw` produces for the scenario-3 record: FIVE
newline-separated segments, not four — the label-less description is
separated from the three labelled lines by an empty line. -/
def forecastSampleText : String :=
  "High: 10.2\n  Low: 2.1\n  Pop: 0.3%\n\nlight rain"

/-- C6 as stated is false: for the scenario-3 forecast record the text
rendered into the forecast region contains four newline characters,
i.e. five newline-separated segments rather than four lines (the
fourth segment is empty and the fifth — the description — carries no
label). -/
theorem forecast_text_not_four_lines :
    ∃ ops, draw indoorSample outdoorSample forecastSample = .ok ops ∧
      ops.get? 8 = some (.textBox forecastSampleText right small_text_style) ∧
      forecastSampleText.data.count '\n' = 4 ∧
      ¬ forecastSampleText.data.count '\n' = 3 := by
  exact ⟨_, rfl, rfl, by decide, by decide⟩

/-- C6 amended: for every forecast record the forecast region's text
consists of five newline-separated segments — a `High:`-labelled high
temperature, a `  Low:`-labelled low temperature, a `  Pop: `-labelled
precipitation probability with a `%` suffix, an empty segment, and the
textual description with no label — rendered centered with the small
font into the full-height right band and outlined with the one-pixel
rectangle style. -/
theorem forecast_region_rendering :
    ∀ (i : IndoorData) (o : OutdoorData) (f : ForecastData), ∃ ops,
      draw i o f = .ok ops ∧
      ops.get? 8 = some (.textBox
        ("High: " ++ fmtFixed 1 f.high ++ "\n  Low: " ++ fmtFixed 1 f.low ++
          "\n  Pop: " ++ fmtFixed 1 f.pop ++ "%\n\n" ++ f.description)
        right small_text_style) ∧
      ops.get? 9 = some (.styledRect right line_style) ∧
      small_text_style.font = .font8x16 ∧
      small_text_style.alignment = .centerAligned ∧
      small_text_style.vertical_alignment = .centerAligned ∧
      line_style.stroke_width = 1 := by
  intro i o f
  exact ⟨_, rfl, rfl, rfl, rfl, rfl, rfl, rfl⟩

/-! ## C7: the precipitation probability is not scaled -/

/-- C7: the pop line applies the one-decimal format directly to the
raw `pop` field — no `×100` scaling — so the f64 parsed from `0.35`
renders as the fractional `"0.3"`, and the pop line reads
`"  Pop: 0.3%"`, not `"  Pop: 35.0%"`. -/
theorem pop_rendered_unscaled :
    (∀ (i : IndoorData) (o : OutdoorData) (f : ForecastData), ∃ ops,
      draw i o f = .ok ops ∧
      ops.get? 8 = some (.textBox
        ("High: " ++ fmtFixed 1 f.high ++ "\n  Low: " ++ fmtFixed 1 f.low ++
          "\n  Pop: " ++ fmtFixed 1 f.pop ++ "%\n\n" ++ f.description)
        right small_text_style)) ∧
    fmtFixed 1 popF64_035 = "0.3" ∧
    "  Pop: " ++ fmtFixed 1 popF64_035 ++ "%" ≠ "  Pop: 35.0%" := by
  exact ⟨fun i o f => ⟨_, rfl, rfl⟩, by decide, by decide⟩

/-! ## C8: composition is total and deterministic -/

/-- C8: `draw` never fails — for every reading triple (every exact
rational embedding of finite f64 fields, `0.0`, negative and large
values included) it returns `Ok` with the full operation sequence —
and it is deterministic: two runs on equal reading triples produce the
identical sequence of formatted strings and region rectangles. -/
theorem draw_total_deterministic :
    (∀ (i : IndoorData) (o : OutdoorData) (f : ForecastData), ∃ ops,
      draw i o f = .ok ops) ∧
    (∀ (i i' : IndoorData) (o o' : OutdoorData) (f f' : ForecastData),
      i = i' → o = o' → f = f' → draw i o f = draw i' o' f') := by
  refine ⟨fun i o f => ⟨_, rfl⟩, ?_⟩
  intro i i' o o' f f' h1 h2 h3
  rw [h1, h2, h3]

/-- Witness for C8: two runs of `draw` on the scenario readings agree. -/
theorem draw_total_deterministic_witness :
    draw indoorSample outdoorSample forecastSample =
      draw indoorSample outdoorSample forecastSample :=
  draw_total_deterministic.2 indoorSample indoorSample outdoorSample
    outdoorSample forecastSample forecastSample rfl rfl rfl

/-! ## C9: the time-of-day gate -/

/-- C9: whenever the local hour is above 22 or below 7 (23:00 through
06:59), `main` prints the bedtime message and returns `Ok` at once —
no configuration load, no panel bring-up, no data acquisition, no
drawing, no frame transfer, no panel sleep; at hour 22 itself the
cycle still proceeds (the configuration load happens and no bedtime
message is printed). -/
theorem bedtime_gate :
    (∀ env : Env, env.hour > 22 ∨ env.hour < 7 →
      mainRun env = ([Effect.printBedtime], .ok ())) ∧
    (∀ env : Env, env.hour = 22 →
      Effect.readConfigFile ∈ (mainRun env).1 ∧
      Effect.printBedtime ∉ (mainRun env).1) := by
  constructor
  · intro env h
    unfold mainRun
    have : (env.hour > 22 || env.hour < 7) = true := by
      rcases h with h | h <;> simp [h]
    simp [this]
  · intro env h
    unfold mainRun
    have : (env.hour > 22 || env.hour < 7) = false := by
      simp [h]
    simp only [this, Bool.false_eq_true, if_false]
    rcases env.confParse with e | c
    · simp
    · rcases env.epdInit with e | u
      · simp
      · rcases get_data env.influxDoc env.weatherDoc with e | ⟨i, o, f⟩ <;>
          rcases env.influxDoc with e2 | d2 <;>
          rcases env.displayResult with e3 | u2 <;>
          rcases env.sleepResult with e4 | u3 <;>
          simp [draw, getDataTrace]

/-- Witness for C9: at 23:00 the run is gated to the bedtime trace,
and at 22:00 the configuration load still happens. -/
theorem bedtime_gate_witness :
    mainRun { hour := 23
              confParse := .error "unread"
              epdInit := .ok ()
              influxDoc := .ok Json.null
              weatherDoc := .ok Json.null
              displayResult := .ok ()
              sleepResult := .ok () } = ([Effect.printBedtime], .ok ()) ∧
    Effect.readConfigFile ∈
      (mainRun { hour := 22
                 confParse := .error "parse error"
                 epdInit := .ok ()
                 influxDoc := .ok Json.null
                 weatherDoc := .ok Json.null
                 displayResult := .ok ()
                 sleepResult := .ok () }).1 :=
  ⟨bedtime_gate.1 _ (Or.inl (by decide)),
   (bedtime_gate.2 _ rfl).1⟩

/-! ## C10: the description is serialized, not extracted -/

/-- The path `response["daily"][0]["weather"][0]["description"]`
whose value `get_data` serializes into the forecast description. -/
def weatherDescPath (d : Json) : Json :=
  ((((d.index "daily").indexN 0).index "weather").indexN 0).index "description"

/-- A well-formed OpenWeatherMap body whose forecast description is the
JSON string `"light rain"`. -/
def weatherSampleDoc : Json :=
  .obj [("daily", .arr [.obj
    [("weather", .arr [.obj [("description", .str "light rain")]]),
     ("pop", .num popF64_035)]])]

/-- C10: the forecast description is the serde_json SERIALIZATION of
the value at `daily[0].weather[0].description` — when that value is a
JSON string it is rendered enclosed in literal double quotes (never
the empty string), and when the path is absent (`null`) it is rendered
as the four characters `null`; it is never defaulted to `""`. -/
theorem description_serialized :
    (∀ d1 d2 : Json, ∃ i o f, get_data (.ok d1) (.ok d2) = .ok (i, o, f) ∧
      f.description = (weatherDescPath d2).to_string) ∧
    (∀ (d1 d2 : Json) (s : String), weatherDescPath d2 = .str s →
      ∃ i o f, get_data (.ok d1) (.ok d2) = .ok (i, o, f) ∧
        f.description = "\"" ++ escapeString s ++ "\"" ∧ f.description ≠ "") ∧
    (∀ d1 d2 : Json, weatherDescPath d2 = .null →
      ∃ i o f, get_data (.ok d1) (.ok d2) = .ok (i, o, f) ∧
        f.description = "null") := by
  refine ⟨fun d1 d2 => ⟨_, _, _, rfl, rfl⟩, ?_, ?_⟩
  · intro d1 d2 s h
    refine ⟨_, _, _, rfl, ?_, ?_⟩
    · show (weatherDescPath d2).to_string = _
      rw [h]
      simp [Json.to_string]
    · show (weatherDescPath d2).to_string ≠ ""
      rw [h]
      simp [Json.to_string]
      intro hEq
      have := congrArg String.length hEq
      simp [String.length_append] at this
      exact absurd this.2 (by decide)
  · intro d1 d2 h
    refine ⟨_, _, _, rfl, ?_⟩
    show (weatherDescPath d2).to_string = _
    rw [h]
    simp [Json.to_string]

/-- Witness for C10: on a body carrying description `"light rain"`,
`get_data` stores the eleven characters `"light rain"` — quotes
included. -/
theorem description_serialized_witness :
    ∃ i o f, get_data (.ok Json.null) (.ok weatherSampleDoc) = .ok (i, o, f) ∧
      f.description = "\"" ++ escapeString "light rain" ++ "\"" ∧
      f.description ≠ "" :=
  description_serialized.2.1 Json.null weatherSampleDoc "light rain" rfl

end Malter
